import Mathlib

/-!
Verification of the SeirChain core (TriadMatrix store, P2P gossip node,
Wallet) against its natural-language specification.

The JavaScript source lives in src/core/TriadMatrix.js, src/network/P2PNode.js
and src/core/Wallet.js (all emitted by setup_seirchain.sh).  Each definition
below is a shallow embedding of the corresponding JavaScript function:

* JavaScript numbers are modelled as exact rationals where the code only
  produces rationals (Math.random outputs, thresholds, constants) and as real
  numbers where Math.sqrt can produce irrationals (distances and consensus
  scores).
* The mutable object graph of the store is modelled with an explicit heap:
  triad objects are heap cells addressed by a reference (their allocation
  index), this.matrix and this.triads hold references, and the LevelDB
  database holds serialized value copies (db.put with JSON value encoding
  copies the object at write time).  This makes JavaScript aliasing -- several
  collections holding the same live object -- faithfully expressible.
* Randomness (crypto.randomBytes, Math.random) and the wall clock are passed
  in explicitly as oracle arguments.
-/

namespace SeirChain

/-! ## JavaScript values (shapes needed by the input validation checks) -/

/-- Model of a JavaScript value as far as the store's input checks can
distinguish one: the checks use truthiness and the typeof operator only. -/
inductive JSValue where
  | nullV : JSValue
  | undefinedV : JSValue
  | boolV (b : Bool) : JSValue
  | numV (q : ℚ) : JSValue
  | strV (s : String) : JSValue
  | objV (tag : String) : JSValue
deriving DecidableEq, Repr

/-- JavaScript truthiness of a value (NaN is not representable here; every
number the modelled code manipulates is an exact rational). -/
def JSValue.truthy : JSValue → Bool
  | .nullV => false
  | .undefinedV => false
  | .boolV b => b
  | .numV q => q != 0
  | .strV s => s != ""
  | .objV _ => true

/-- Result of the JavaScript typeof operator (typeof null is "object"). -/
def JSValue.typeofStr : JSValue → String
  | .nullV => "object"
  | .undefinedV => "undefined"
  | .boolV _ => "boolean"
  | .numV _ => "number"
  | .strV _ => "string"
  | .objV _ => "object"

/-! ## Triads and the matrix state -/

/-- A position in the 3-D matrix space.  createTriad only ever produces
integer coordinates (Math.floor of a number), so components are integers. -/
structure Position where
  x : ℤ
  y : ℤ
  z : ℤ
deriving DecidableEq, Repr

/-- A triad record, exactly the object literal built in createTriad.
The consensus field is a real number because the score is built from
Math.sqrt values. -/
structure Triad where
  id : String
  data : JSValue
  validator : String
  timestamp : ℕ
  position : Position
  connections : List String
  validated : Bool
  consensus : ℝ
  validationAttempts : ℕ

/-- Default triad used to give heap lookups a total type; never reachable
through a valid reference. -/
def defaultTriad : Triad :=
  { id := "", data := .nullV, validator := "", timestamp := 0,
    position := ⟨0, 0, 0⟩, connections := [], validated := false,
    consensus := 0, validationAttempts := 0 }

instance : Inhabited Triad := ⟨defaultTriad⟩

/-- Heap references: a triad object is identified by its allocation index. -/
abbrev Ref := ℕ

/-- State of one TriadMatrix instance.  heap holds the live triad objects;
matrix (this.matrix) and triads (this.triads, a Map from id) hold references
into the heap, mirroring the JavaScript object graph where both collections
alias the same objects.  db is the LevelDB key-value store, holding value
copies made at put time. -/
structure MatrixState where
  heap : List Triad
  matrix : List Ref
  triads : List (String × Ref)
  db : List (String × Triad)
  dimensions : ℕ
  complexity : ℚ
  consensusThreshold : ℚ
  validators : List String
  isInitialized : Bool

/-- Dereference a heap cell. -/
def getRef (st : MatrixState) (r : Ref) : Triad := st.heap.getD r defaultTriad

/-- Lookup of this.triads.get(id): the reference registered for an id. -/
def lookupRef (st : MatrixState) (id : String) : Option Ref :=
  (st.triads.find? (fun p => p.1 == id)).map (fun p => p.2)

/-- The current values of the objects referenced by this.matrix, in order. -/
def liveTriads (st : MatrixState) : List Triad := st.matrix.map (getRef st)

/-- Database point lookup (this.db.get) returning the stored value copy. -/
def dbGet (db : List (String × Triad)) (k : String) : Option Triad :=
  (db.find? (fun p => p.1 == k)).map (fun p => p.2)

/-- Database write (this.db.put): overwrite the entry for a key or append a
fresh one.  The stored record is a value copy of the object at put time. -/
def dbPut (db : List (String × Triad)) (k : String) (t : Triad) :
    List (String × Triad) :=
  if db.any (fun p => p.1 == k) then
    db.map (fun p => if p.1 == k then (k, t) else p)
  else db ++ [(k, t)]

/-! ## Distance and the consensus score (TriadMatrix.js) -/

/-- Sum of squared coordinate differences, an exact integer. -/
def sqDist (p1 p2 : Position) : ℤ :=
  (p1.x - p2.x) ^ 2 + (p1.y - p2.y) ^ 2 + (p1.z - p2.z) ^ 2

/-- calculateDistance: Math.sqrt of the sum of squared differences. -/
noncomputable def calculateDistance (p1 p2 : Position) : ℝ :=
  Real.sqrt ((sqDist p1 p2 : ℤ) : ℝ)

/-- calculateConnectionScore: zero beyond complexity, otherwise
max(0, 1 - distance/complexity). -/
noncomputable def calculateConnectionScore (complexity : ℚ) (t1 t2 : Triad) : ℝ :=
  let distance := calculateDistance t1.position t2.position
  if distance > (complexity : ℝ) then 0
  else max 0 (1 - distance / (complexity : ℝ))

open Classical in
/-- getTriadConnections: every other triad of the matrix whose distance d to
the given one satisfies 0 < d and d <= complexity. -/
noncomputable def getTriadConnections (complexity : ℚ) (matrix : List Triad)
    (t : Triad) : List Triad :=
  matrix.filter (fun u =>
    decide (u.id ≠ t.id ∧
      calculateDistance u.position t.position ≤ (complexity : ℝ) ∧
      calculateDistance u.position t.position > 0))

/-- calculateConsensus: zero without connections; otherwise the average of the
per-connection scores (halved for unvalidated neighbours) plus the
self-validation bonus, clamped at 1. -/
noncomputable def calculateConsensus (complexity : ℚ) (validators : List String)
    (matrix : List Triad) (t : Triad) (currentValidatorId : String) : ℝ :=
  let connections := getTriadConnections complexity matrix t
  if connections.length = 0 then 0
  else
    let validationScores := connections.map (fun conn =>
      if conn.validated then calculateConnectionScore complexity t conn
      else 0.5 * calculateConnectionScore complexity t conn)
    let selfValidationFactor : ℝ :=
      if validators.contains currentValidatorId then 0.1 else 0.05
    let averageScore := validationScores.sum / (validationScores.length : ℝ)
    min 1 (averageScore + selfValidationFactor)

/-! ## Specification-side restatement of the scoring algorithm.

These definitions follow the wording of the specification (section 4.1,
"Consensus algorithm") rather than the source, and are compared with the
source embedding in the theorem for claim C1. -/

/-- Connection score as worded by the spec: max(0, 1 - d/complexity), taken
as-is for a validated neighbour and halved (weight 0.5) otherwise. -/
noncomputable def specWeightedConnectionScore (complexity : ℚ) (t conn : Triad) : ℝ :=
  (if conn.validated then 1 else 0.5) *
    max 0 (1 - calculateDistance t.position conn.position / (complexity : ℝ))

/-- Self-validation bonus as worded by the spec. -/
def specBonus (validators : List String) (v : String) : ℝ :=
  if validators.contains v then 0.1 else 0.05

/-- Consensus score as worded by the spec: min(1, average + bonus) over the
connections, and exactly 0 with no connections. -/
noncomputable def specConsensusScore (complexity : ℚ) (validators : List String)
    (matrix : List Triad) (t : Triad) (v : String) : ℝ :=
  let connections := getTriadConnections complexity matrix t
  if connections.length = 0 then 0
  else
    min 1
      ((connections.map (specWeightedConnectionScore complexity t)).sum /
          (connections.length : ℝ) + specBonus validators v)

/-! ## Store operations (TriadMatrix.js) -/

/-- Errors thrown by the store.  invalidData and invalidValidator are the two
shapes of the InvalidInput failure of the specification. -/
inductive StoreError where
  | notInitialized
  | notFound (id : String)
  | invalidData
  | invalidValidator
deriving DecidableEq, Repr

/-- Events emitted by the store on its EventEmitter interface. -/
inductive StoreEvent where
  | triadCreated (t : Triad)
  | triadValidated (t : Triad)

/-- Externally visible actions of one store operation, in program order:
durable writes (db.put of a triad record, db.put of the matrix metadata) and
event emissions. -/
inductive Action where
  | dbPutRecord (key : String) (t : Triad)
  | dbPutMeta
  | emitEv (e : StoreEvent)

/-- Oracle for one createTriad call: the 16 bytes drawn by crypto.randomBytes
and the three Math.random outputs (every Math.random value is a rational in
[0,1)). -/
structure Entropy where
  idBytes : List ℕ
  ux : ℚ
  uy : ℚ
  uz : ℚ
deriving DecidableEq, Repr

/-- Well-formedness of the entropy oracle: randomBytes yields 16 bytes and
Math.random yields values in [0,1). -/
def Entropy.WF (e : Entropy) : Prop :=
  e.idBytes.length = 16 ∧ (∀ b ∈ e.idBytes, b < 256) ∧
  0 ≤ e.ux ∧ e.ux < 1 ∧ 0 ≤ e.uy ∧ e.uy < 1 ∧ 0 ≤ e.uz ∧ e.uz < 1

/-- The sixteen lowercase hexadecimal digit characters. -/
def hexDigitChars : List Char := "0123456789abcdef".toList

/-- Hexadecimal digit character for a nibble. -/
def hexDigit (n : ℕ) : Char := hexDigitChars.getD n '0'

/-- generateTriadId: crypto.randomBytes(16).toString(hex) -- each byte
becomes two lowercase hex digits, high nibble first. -/
def generateTriadId (bytes : List ℕ) : String :=
  String.mk (bytes.flatMap (fun b => [hexDigit (b / 16), hexDigit (b % 16)]))

/-- calculateOptimalPosition: Math.floor(Math.random() * dimensions) on each
axis independently. -/
def calculateOptimalPosition (dimensions : ℕ) (e : Entropy) : Position :=
  { x := ⌊e.ux * (dimensions : ℚ)⌋,
    y := ⌊e.uy * (dimensions : ℚ)⌋,
    z := ⌊e.uz * (dimensions : ℚ)⌋ }

/-- String payload of a JSValue; used only after the typeof check has
established that the value is a string. -/
def JSValue.asString : JSValue → String
  | .strV s => s
  | _ => ""

/-- Insert or overwrite a key in the this.triads Map (Map.set keeps the
insertion position of an existing key). -/
def mapSet (m : List (String × Ref)) (k : String) (r : Ref) :
    List (String × Ref) :=
  if m.any (fun p => p.1 == k) then
    m.map (fun p => if p.1 == k then (k, r) else p)
  else m ++ [(k, r)]

/-- createTriad: input validation exactly as in the source
(.not data, or typeof data neither object nor string; .not validator, or
typeof validator not string), then allocation of the new triad object, push
onto this.matrix, set into this.triads, db.put of the record,
saveMatrixState, and emission of triadCreated. -/
def createTriad (st : MatrixState) (e : Entropy) (now : ℕ)
    (data validator : JSValue) :
    Except StoreError (MatrixState × Triad × List Action) :=
  if st.isInitialized = false then .error .notInitialized
  else if data.truthy = false ∨
      (data.typeofStr ≠ "object" ∧ data.typeofStr ≠ "string") then
    .error .invalidData
  else if validator.truthy = false ∨ validator.typeofStr ≠ "string" then
    .error .invalidValidator
  else
    let t : Triad :=
      { id := generateTriadId e.idBytes,
        data := data,
        validator := validator.asString,
        timestamp := now,
        position := calculateOptimalPosition st.dimensions e,
        connections := [],
        validated := false,
        consensus := 0,
        validationAttempts := 0 }
    let r : Ref := st.heap.length
    let st' : MatrixState :=
      { st with
        heap := st.heap ++ [t],
        matrix := st.matrix ++ [r],
        triads := mapSet st.triads t.id r,
        db := dbPut st.db ("triad:" ++ t.id) t }
    .ok (st', t,
      [.dbPutRecord ("triad:" ++ t.id) t, .dbPutMeta, .emitEv (.triadCreated t)])

open Classical in
/-- validateTriad: returns the triad unchanged when already validated;
otherwise computes the consensus score, bumps validationAttempts, sets
validated when the score reaches the threshold, persists the record and
emits triadValidated. -/
noncomputable def validateTriad (st : MatrixState) (triadId validatorId : String) :
    Except StoreError (MatrixState × Triad × List Action) :=
  if st.isInitialized = false then .error .notInitialized
  else
    match lookupRef st triadId with
    | none => .error (.notFound triadId)
    | some r =>
      let t := getRef st r
      if t.validated then .ok (st, t, [])
      else
        let consensusScore :=
          calculateConsensus st.complexity st.validators (liveTriads st) t validatorId
        let t' : Triad :=
          { t with
            consensus := consensusScore,
            validationAttempts := t.validationAttempts + 1,
            validated :=
              if consensusScore ≥ (st.consensusThreshold : ℝ) then true
              else t.validated }
        let st' : MatrixState :=
          { st with
            heap := st.heap.set r t',
            db := dbPut st.db ("triad:" ++ triadId) t' }
        .ok (st', t',
          [.dbPutRecord ("triad:" ++ triadId) t', .emitEv (.triadValidated t')])

/-- getTriad: durable point lookup, null (here none) when the key is absent. -/
def getTriad (st : MatrixState) (triadId : String) :
    Except StoreError (Option Triad) :=
  if st.isInitialized = false then .error .notInitialized
  else .ok (dbGet st.db ("triad:" ++ triadId))

/-- addValidator: validation of the id, no-op returning false when already
registered, otherwise insertion plus an asynchronous metadata write. -/
def addValidator (st : MatrixState) (validatorId : JSValue) :
    Except StoreError (MatrixState × Bool × List Action) :=
  if validatorId.truthy = false ∨ validatorId.typeofStr ≠ "string" then
    .error .invalidValidator
  else if st.validators.contains validatorId.asString then .ok (st, false, [])
  else
    .ok ({ st with validators := st.validators ++ [validatorId.asString] },
      true, [.dbPutMeta])

/-! ## Basic lemmas about distances and connections -/

lemma sqDist_comm (p q : Position) : sqDist p q = sqDist q p := by
  unfold sqDist; ring

lemma calculateDistance_comm (p q : Position) :
    calculateDistance p q = calculateDistance q p := by
  unfold calculateDistance; rw [sqDist_comm]

lemma mem_getTriadConnections {c : ℚ} {m : List Triad} {t u : Triad}
    (h : u ∈ getTriadConnections c m t) :
    u ∈ m ∧ u.id ≠ t.id ∧
      calculateDistance u.position t.position ≤ (c : ℝ) ∧
      calculateDistance u.position t.position > 0 := by
  unfold getTriadConnections at h
  rw [List.mem_filter] at h
  exact ⟨h.1, of_decide_eq_true h.2⟩

lemma calculateConnectionScore_of_le {c : ℚ} {t u : Triad}
    (h : calculateDistance t.position u.position ≤ (c : ℝ)) :
    calculateConnectionScore c t u =
      max 0 (1 - calculateDistance t.position u.position / (c : ℝ)) := by
  unfold calculateConnectionScore
  exact if_neg (not_lt.mpr h)

lemma calculateConnectionScore_nonneg (c : ℚ) (t u : Triad) :
    0 ≤ calculateConnectionScore c t u := by
  unfold calculateConnectionScore
  dsimp only
  split
  · exact le_refl 0
  · exact le_max_left 0 _

lemma weighted_scores_eq (c : ℚ) (m : List Triad) (t : Triad) :
    (getTriadConnections c m t).map (fun conn =>
      if conn.validated then calculateConnectionScore c t conn
      else 0.5 * calculateConnectionScore c t conn) =
    (getTriadConnections c m t).map (specWeightedConnectionScore c t) := by
  apply List.map_congr_left
  intro conn hconn
  have h := mem_getTriadConnections hconn
  have hle : calculateDistance t.position conn.position ≤ (c : ℝ) := by
    rw [calculateDistance_comm]; exact h.2.2.1
  rw [calculateConnectionScore_of_le hle]
  unfold specWeightedConnectionScore
  by_cases hv : conn.validated <;> simp [hv]

lemma specBonus_nonneg (validators : List String) (v : String) :
    0 ≤ specBonus validators v := by
  unfold specBonus
  split <;> norm_num

/-- C1: during validation the consensus score equals min(1, average + bonus)
where the average ranges over the connections (other triads at Euclidean
distance d with 0 < d <= complexity) of the per-connection score
max(0, 1 - d/complexity), used as-is for validated neighbours and halved
otherwise, and the bonus is 0.1 for a registered validator address and 0.05
otherwise; the score always lies in [0,1] and is exactly 0 when the triad
has no connections. -/
theorem calculateConsensus_correct (c : ℚ) (validators : List String)
    (m : List Triad) (t : Triad) (v : String) :
    calculateConsensus c validators m t v = specConsensusScore c validators m t v ∧
    calculateConsensus c validators m t v ∈ Set.Icc (0 : ℝ) 1 ∧
    (getTriadConnections c m t = [] → calculateConsensus c validators m t v = 0) := by
  have hspec : calculateConsensus c validators m t v = specConsensusScore c validators m t v := by
    unfold calculateConsensus specConsensusScore
    dsimp only
    by_cases h : (getTriadConnections c m t).length = 0
    · rw [if_pos h, if_pos h]
    · rw [if_neg h, if_neg h, weighted_scores_eq, List.length_map]
      rfl
  refine ⟨hspec, ?_, ?_⟩
  · rw [hspec]
    unfold specConsensusScore
    dsimp only
    by_cases h : (getTriadConnections c m t).length = 0
    · rw [if_pos h]
      exact ⟨le_refl 0, zero_le_one⟩
    · rw [if_neg h]
      constructor
      · apply le_min zero_le_one
        apply add_nonneg _ (specBonus_nonneg validators v)
        apply div_nonneg _ (Nat.cast_nonneg _)
        apply List.sum_nonneg
        intro x hx
        rw [List.mem_map] at hx
        obtain ⟨conn, _, rfl⟩ := hx
        unfold specWeightedConnectionScore
        apply mul_nonneg
        · split <;> norm_num
        · exact le_max_left 0 _
      · exact min_le_left 1 _
  · intro h
    unfold calculateConsensus
    dsimp only
    rw [if_pos (by rw [h]; rfl)]

/-! ## Heap and database lemmas -/

lemma getD_set_self {l : List Triad} {r : ℕ} {a d : Triad} (h : r < l.length) :
    (l.set r a).getD r d = a := by
  rw [List.getD_eq_getD_get?, List.get?_eq_getElem?, List.getElem?_set_self h]
  rfl

lemma getD_set_ne {l : List Triad} {r ρ : ℕ} {a d : Triad} (h : r ≠ ρ) :
    (l.set r a).getD ρ d = l.getD ρ d := by
  rw [List.getD_eq_getD_get?, List.getD_eq_getD_get?, List.get?_eq_getElem?,
    List.get?_eq_getElem?, List.getElem?_set_ne h]

lemma dbPut_cons_ne {p : String × Triad} {db : List (String × Triad)}
    {k : String} {t : Triad} (h : (p.1 == k) = false) :
    dbPut (p :: db) k t = p :: dbPut db k t := by
  have hne : ¬ p.1 = k := by simpa using h
  unfold dbPut
  by_cases h2 : db.any (fun q => q.1 == k)
  · rw [if_pos (by simp [List.any_cons, h, h2]), if_pos h2]
    simp [hne]
  · rw [if_neg (by simp [List.any_cons, h, h2]), if_neg h2]
    simp

lemma dbGet_dbPut_self (db : List (String × Triad)) (k : String) (t : Triad) :
    dbGet (dbPut db k t) k = some t := by
  induction db with
  | nil => simp [dbPut, dbGet]
  | cons p db ih =>
    by_cases hp : (p.1 == k) = true
    · have hpk : p.1 = k := by simpa using hp
      unfold dbPut dbGet
      rw [if_pos (by simp [List.any_cons, hp]), List.map_cons]
      simp [hpk]
    · rw [dbPut_cons_ne (by simpa using hp)]
      unfold dbGet
      rw [List.find?_cons_of_neg _ (by simpa using hp)]
      exact ih

/-! ## Concrete fixtures used by witnesses -/

/-- A concrete unvalidated triad. -/
def tA : Triad :=
  { id := "aa", data := .strV "hello", validator := "w", timestamp := 5,
    position := ⟨0, 0, 0⟩, connections := [], validated := false,
    consensus := 0, validationAttempts := 0 }

/-- The same triad already validated. -/
def tAv : Triad := { tA with validated := true, consensus := 1 }

/-- An initialized store holding the single unvalidated triad tA. -/
def stOne : MatrixState :=
  { heap := [tA], matrix := [0], triads := [("aa", 0)],
    db := [("triad:aa", tA)], dimensions := 3, complexity := 4,
    consensusThreshold := 0.67, validators := [], isInitialized := true }

/-- An initialized store holding the single validated triad tAv. -/
def stOneV : MatrixState :=
  { heap := [tAv], matrix := [0], triads := [("aa", 0)],
    db := [("triad:aa", tAv)], dimensions := 3, complexity := 4,
    consensusThreshold := 0.67, validators := [], isInitialized := true }

/-! ## Claims C2 and C3: validateTriad -/

/-- C2: validating an existing, not yet validated triad stores the freshly
computed consensus score, increments validationAttempts by one, sets
validated exactly when the score reaches consensusThreshold, persists the
updated record before emitting triadValidated (the action trace lists the
db write first), and no store operation ever changes a validated flag from
true back to false. -/
theorem validateTriad_updates (st : MatrixState) (id v : String) (r : Ref)
    (t : Triad)
    (hinit : st.isInitialized = true)
    (href : lookupRef st id = some r)
    (ht : getRef st r = t)
    (hr : r < st.heap.length)
    (hnv : t.validated = false) :
    (∃ st1 t1,
      validateTriad st id v =
        .ok (st1, t1,
          [Action.dbPutRecord ("triad:" ++ id) t1,
           Action.emitEv (.triadValidated t1)]) ∧
      t1.consensus =
        calculateConsensus st.complexity st.validators (liveTriads st) t v ∧
      t1.validationAttempts = t.validationAttempts + 1 ∧
      (t1.validated = true ↔
        calculateConsensus st.complexity st.validators (liveTriads st) t v ≥
          (st.consensusThreshold : ℝ)) ∧
      dbGet st1.db ("triad:" ++ id) = some t1 ∧
      getRef st1 r = t1) ∧
    (∀ st0 id0 v0 st2 t2 tr, validateTriad st0 id0 v0 = .ok (st2, t2, tr) →
      ∀ ρ, (getRef st0 ρ).validated = true → (getRef st2 ρ).validated = true) ∧
    (∀ st0 e now d w st2 t2 tr, createTriad st0 e now d w = .ok (st2, t2, tr) →
      ∀ ρ, (getRef st0 ρ).validated = true → (getRef st2 ρ).validated = true) ∧
    (∀ st0 w st2 b tr, addValidator st0 w = .ok (st2, b, tr) →
      ∀ ρ, getRef st2 ρ = getRef st0 ρ) := by
  subst ht
  constructor
  · unfold validateTriad
    rw [if_neg (by simp [hinit]), href]
    simp only
    rw [if_neg (by simp [hnv])]
    refine ⟨_, _, rfl, rfl, rfl, ?_, ?_, ?_⟩
    · dsimp only
      constructor
      · intro h
        by_contra hge
        rw [if_neg hge] at h
        rw [hnv] at h
        exact Bool.false_ne_true h
      · intro h
        rw [if_pos h]
    · exact dbGet_dbPut_self _ _ _
    · exact getD_set_self hr
  refine ⟨?_, ?_, ?_⟩
  · intro st0 id0 v0 st2 t2 tr h ρ hval
    unfold validateTriad at h
    split at h
    · exact absurd h (by simp)
    · split at h
      · exact absurd h (by simp)
      · rename_i r0 _
        dsimp only at h
        split at h
        · cases h
          exact hval
        · rename_i hnv0
          cases h
          by_cases hρ : r0 = ρ
          · subst hρ
            exact absurd hval (by simpa using hnv0)
          · unfold getRef at hval ⊢
            dsimp only at *
            rw [getD_set_ne hρ]
            exact hval
  · intro st0 e now d w st2 t2 tr h ρ hval
    unfold createTriad at h
    split at h
    · exact absurd h (by simp)
    · split at h
      · exact absurd h (by simp)
      · split at h
        · exact absurd h (by simp)
        · cases h
          unfold getRef at hval ⊢
          dsimp only at *
          by_cases hρ : ρ < st0.heap.length
          · rw [List.getD_append _ _ _ _ hρ]
            exact hval
          · rw [List.getD_eq_default _ _ (le_of_not_lt hρ)] at hval
            exact absurd hval (by simp [defaultTriad])
  · intro st0 w st2 b tr h ρ
    unfold addValidator at h
    split at h
    · exact absurd h (by simp)
    · split at h
      · cases h
        rfl
      · cases h
        rfl

/-- Witness for C2 at a concrete store: the single unvalidated triad of
stOne is re-scored, persisted and reported through triadValidated. -/
theorem validateTriad_updates_witness :
    ∃ st1 t1,
      validateTriad stOne "aa" "w" =
        .ok (st1, t1,
          [Action.dbPutRecord ("triad:" ++ "aa") t1,
           Action.emitEv (.triadValidated t1)]) ∧
      t1.consensus =
        calculateConsensus stOne.complexity stOne.validators (liveTriads stOne) tA "w" ∧
      t1.validationAttempts = tA.validationAttempts + 1 ∧
      (t1.validated = true ↔
        calculateConsensus stOne.complexity stOne.validators (liveTriads stOne) tA "w" ≥
          (stOne.consensusThreshold : ℝ)) ∧
      dbGet st1.db ("triad:" ++ "aa") = some t1 ∧
      getRef st1 0 = t1 :=
  (validateTriad_updates stOne "aa" "w" 0 tA rfl rfl rfl (by decide) rfl).1

/-- C3: validateTriad on an already validated triad is an idempotent no-op:
it returns the stored triad unchanged, the state is untouched, and no
database write or event occurs (in particular validationAttempts does not
increase and no re-scoring happens). -/
theorem validateTriad_idempotent (st : MatrixState) (id v : String) (r : Ref)
    (hinit : st.isInitialized = true)
    (href : lookupRef st id = some r)
    (hv : (getRef st r).validated = true) :
    validateTriad st id v = .ok (st, getRef st r, []) := by
  unfold validateTriad
  rw [if_neg (by simp [hinit]), href]
  simp only
  rw [if_pos hv]

/-- Witness for C3 at a concrete store: the validated triad of stOneV is
returned unchanged with an empty action trace. -/
theorem validateTriad_idempotent_witness :
    validateTriad stOneV "aa" "w" = .ok (stOneV, getRef stOneV 0, []) :=
  validateTriad_idempotent stOneV "aa" "w" 0 rfl rfl rfl

/-! ## Claim C4: createTriad -/

/-- A lowercase hexadecimal digit character. -/
def isLowerHexChar (c : Char) : Prop :=
  ('0' ≤ c ∧ c ≤ '9') ∨ ('a' ≤ c ∧ c ≤ 'f')

instance (c : Char) : Decidable (isLowerHexChar c) := by
  unfold isLowerHexChar; infer_instance

lemma hexDigit_lowerHex : ∀ n < 16, isLowerHexChar (hexDigit n) := by decide

lemma length_flatMap_pair (bytes : List ℕ) :
    (bytes.flatMap (fun b => [hexDigit (b / 16), hexDigit (b % 16)])).length =
      2 * bytes.length := by
  induction bytes with
  | nil => rfl
  | cons b l ih =>
    simp only [List.flatMap_cons, List.length_append, ih, List.length_cons,
      List.length_nil]
    ring

lemma generateTriadId_spec {bytes : List ℕ} (hlen : bytes.length = 16)
    (hbyte : ∀ b ∈ bytes, b < 256) :
    (generateTriadId bytes).length = 32 ∧
    ∀ c ∈ (generateTriadId bytes).toList, isLowerHexChar c := by
  constructor
  · show (String.mk _).length = 32
    simp only [String.length, length_flatMap_pair, hlen]
  · intro c hc
    have hc2 : c ∈ bytes.flatMap (fun b => [hexDigit (b / 16), hexDigit (b % 16)]) := hc
    rw [List.mem_flatMap] at hc2
    obtain ⟨b, hb, hcb⟩ := hc2
    have hblt := hbyte b hb
    simp only [List.mem_cons, List.not_mem_nil, or_false] at hcb
    rcases hcb with h | h <;> subst h <;>
      exact hexDigit_lowerHex _ (by omega)

lemma floor_unit_mul {u : ℚ} {dims : ℕ} (h0 : 0 ≤ u) (h1 : u < 1)
    (hd : 1 ≤ dims) :
    0 ≤ ⌊u * (dims : ℚ)⌋ ∧ ⌊u * (dims : ℚ)⌋ < (dims : ℤ) := by
  have hdpos : (0 : ℚ) < (dims : ℚ) := by exact_mod_cast Nat.lt_of_lt_of_le Nat.zero_lt_one hd
  constructor
  · exact Int.floor_nonneg.mpr (mul_nonneg h0 (le_of_lt hdpos))
  · rw [Int.floor_lt]
    push_cast
    exact mul_lt_of_lt_one_left hdpos h1

/-- Fixed entropy oracle used by concrete witnesses. -/
def entropy0 : Entropy :=
  { idBytes := [0, 1, 2, 3, 4, 5, 6, 7, 8, 9, 10, 11, 12, 13, 14, 15],
    ux := 0, uy := 0, uz := 0 }

instance (e : Entropy) : Decidable e.WF := by
  unfold Entropy.WF; infer_instance

/-- C4 (amended): when the store is initialized, data is JS-truthy and of a
supported shape (an object, or a non-empty string -- the code rejects the
empty string through its truthiness test) and the validator is a non-empty
string, createTriad yields a triad whose position components lie in
[0, dimensions), whose id is a 32-character lowercase hex string and whose
validated, consensus and validationAttempts start at false, 0 and 0; it
fails with NotInitialized before load completion, with InvalidInput
(invalidData) when data is absent or unsupported, and with InvalidInput
(invalidValidator) when the validator is empty or not a string. -/
theorem createTriad_correct (st : MatrixState) (e : Entropy) (now : ℕ)
    (data validator : JSValue)
    (hinit : st.isInitialized = true)
    (hdata : data.truthy = true ∧
      (data.typeofStr = "object" ∨ data.typeofStr = "string"))
    (hvalid : validator.truthy = true ∧ validator.typeofStr = "string")
    (he : e.WF)
    (hd : 1 ≤ st.dimensions) :
    (∃ st1 t tr, createTriad st e now data validator = .ok (st1, t, tr) ∧
      0 ≤ t.position.x ∧ t.position.x < (st.dimensions : ℤ) ∧
      0 ≤ t.position.y ∧ t.position.y < (st.dimensions : ℤ) ∧
      0 ≤ t.position.z ∧ t.position.z < (st.dimensions : ℤ) ∧
      t.id.length = 32 ∧ (∀ c ∈ t.id.toList, isLowerHexChar c) ∧
      t.validated = false ∧ t.consensus = 0 ∧ t.validationAttempts = 0) ∧
    (∀ (st0 : MatrixState) (e0 : Entropy) (n0 : ℕ) (d0 v0 : JSValue),
      st0.isInitialized = false →
      createTriad st0 e0 n0 d0 v0 = .error .notInitialized) ∧
    (∀ (st0 : MatrixState) (e0 : Entropy) (n0 : ℕ) (d0 v0 : JSValue),
      st0.isInitialized = true →
      d0.truthy = false ∨ (d0.typeofStr ≠ "object" ∧ d0.typeofStr ≠ "string") →
      createTriad st0 e0 n0 d0 v0 = .error .invalidData) ∧
    (∀ (st0 : MatrixState) (e0 : Entropy) (n0 : ℕ) (d0 v0 : JSValue),
      st0.isInitialized = true →
      (d0.truthy = true ∧ (d0.typeofStr = "object" ∨ d0.typeofStr = "string")) →
      v0.truthy = false ∨ v0.typeofStr ≠ "string" →
      createTriad st0 e0 n0 d0 v0 = .error .invalidValidator) := by
  obtain ⟨hlen, hbytes, hx0, hx1, hy0, hy1, hz0, hz1⟩ := he
  refine ⟨?_, ?_, ?_, ?_⟩
  · unfold createTriad
    rw [if_neg (by simp [hinit]),
      if_neg (by simp [hdata.1, hdata.2]; tauto),
      if_neg (by simp [hvalid.1, hvalid.2])]
    refine ⟨_, _, _, rfl, ?_⟩
    have hx := floor_unit_mul hx0 hx1 hd
    have hy := floor_unit_mul hy0 hy1 hd
    have hz := floor_unit_mul hz0 hz1 hd
    have hid := generateTriadId_spec hlen hbytes
    exact ⟨hx.1, hx.2, hy.1, hy.2, hz.1, hz.2, hid.1, hid.2, rfl, rfl, rfl⟩
  · intro st0 e0 n0 d0 v0 h
    unfold createTriad
    rw [if_pos (by simp [h])]
  · intro st0 e0 n0 d0 v0 h hdat
    unfold createTriad
    rw [if_neg (by simp [h]), if_pos (by tauto)]
  · intro st0 e0 n0 d0 v0 h hdat hv
    unfold createTriad
    rw [if_neg (by simp [h]), if_neg (by simp [hdat.1, hdat.2]; tauto),
      if_pos (by tauto)]

/-- Witness for C4 at a concrete input: creating a triad in stOne with
string data succeeds with in-range position and a 32-char lowercase hex id. -/
theorem createTriad_correct_witness :
    ∃ st1 t tr, createTriad stOne entropy0 7 (.strV "payload") (.strV "w") =
        .ok (st1, t, tr) ∧
      0 ≤ t.position.x ∧ t.position.x < (stOne.dimensions : ℤ) ∧
      0 ≤ t.position.y ∧ t.position.y < (stOne.dimensions : ℤ) ∧
      0 ≤ t.position.z ∧ t.position.z < (stOne.dimensions : ℤ) ∧
      t.id.length = 32 ∧ (∀ c ∈ t.id.toList, isLowerHexChar c) ∧
      t.validated = false ∧ t.consensus = 0 ∧ t.validationAttempts = 0 :=
  (createTriad_correct stOne entropy0 7 (.strV "payload") (.strV "w") rfl
    (by constructor <;> decide) (by constructor <;> decide) (by decide)
    (by decide)).1

/-- C4 counterexample: the empty string is present data of supported shape
(typeof is the string "string") and the validator address is non-empty, yet
createTriad rejects the call as InvalidInput, because the source tests JS
truthiness of data first and the empty string is falsy. -/
theorem createTriad_empty_string_rejected :
    (JSValue.strV "").typeofStr = "string" ∧
    (JSValue.strV "w").truthy = true ∧
    stOne.isInitialized = true ∧
    createTriad stOne entropy0 0 (.strV "") (.strV "w") =
      .error .invalidData := by
  refine ⟨rfl, rfl, rfl, ?_⟩
  unfold createTriad
  rw [if_neg (by decide), if_pos (by simp [JSValue.truthy])]

/-! ## Claim C9: getMatrixState -/

/-- Snapshot returned by getMatrixState.  The scalar fields and the triads
array itself are fresh copies (Array.from allocates a new array), but the
array entries are the references held by this.triads: the snapshot aliases
the live triad objects. -/
structure Snapshot where
  dimensions : ℕ
  complexity : ℚ
  triadsCount : ℕ
  triads : List Ref
  validators : List String
  consensusThreshold : ℚ
  isInitialized : Bool

/-- getMatrixState as written in the source: scalar copies plus
Array.from(this.triads.values()) and Array.from(this.validators). -/
def getMatrixState (st : MatrixState) : Snapshot :=
  { dimensions := st.dimensions,
    complexity := st.complexity,
    triadsCount := st.matrix.length,
    triads := st.triads.map (fun p => p.2),
    validators := st.validators,
    consensusThreshold := st.consensusThreshold,
    isInitialized := st.isInitialized }

/-- What a consumer of a snapshot sees when reading its triad entries: the
referenced objects as they currently are on the heap. -/
def readSnapshotTriads (s : Snapshot) (st : MatrixState) : List Triad :=
  s.triads.map (getRef st)

lemma getTriadConnections_self_singleton (c : ℚ) (t : Triad) :
    getTriadConnections c [t] t = [] := by
  unfold getTriadConnections
  rw [List.filter_cons, if_neg (by simp)]
  rfl

lemma consensus_self_singleton (c : ℚ) (validators : List String) (t : Triad)
    (v : String) :
    calculateConsensus c validators [t] t v = 0 := by
  unfold calculateConsensus
  rw [getTriadConnections_self_singleton]
  rfl

/-- Value of the single triad of stOne after one validation attempt: no
connections, so the score is 0, below the threshold. -/
def t1val : Triad := { tA with consensus := 0, validationAttempts := 1 }

/-- State of stOne after one validation attempt on its triad. -/
def st1val : MatrixState := { stOne with heap := [t1val], db := [("triad:aa", t1val)] }

lemma validateTriad_stOne_eval :
    validateTriad stOne "aa" "w" =
      .ok (st1val, t1val,
        [Action.dbPutRecord ("triad:" ++ "aa") t1val,
         Action.emitEv (.triadValidated t1val)]) := by
  have hscore :
      calculateConsensus stOne.complexity stOne.validators (liveTriads stOne)
        (getRef stOne 0) "w" = 0 := by
    rw [show liveTriads stOne = [tA] from rfl]
    exact consensus_self_singleton _ _ _ _
  unfold validateTriad
  rw [if_neg (by decide), show lookupRef stOne "aa" = some 0 from rfl]
  simp only
  rw [if_neg (by decide)]
  rw [hscore, show stOne.consensusThreshold = (0.67:ℚ) from rfl,
    if_neg (show ¬ ((0:ℝ) ≥ ((0.67:ℚ):ℝ)) by push_cast; norm_num)]
  rfl

/-- C9 counterexample: a snapshot taken from stOne before validating its
triad is affected by the later validateTriad -- reading the snapshot's triad
entries through the heap after the call shows validationAttempts bumped to 1
although the snapshot predates the call, because the snapshot holds live
object references, not copies. -/
theorem getMatrixState_not_point_in_time :
    validateTriad stOne "aa" "w" =
      .ok (st1val, t1val,
        [Action.dbPutRecord ("triad:" ++ "aa") t1val,
         Action.emitEv (.triadValidated t1val)]) ∧
    readSnapshotTriads (getMatrixState stOne) st1val ≠
      readSnapshotTriads (getMatrixState stOne) stOne ∧
    (readSnapshotTriads (getMatrixState stOne) st1val).map
      Triad.validationAttempts = [1] ∧
    (readSnapshotTriads (getMatrixState stOne) stOne).map
      Triad.validationAttempts = [0] := by
  refine ⟨validateTriad_stOne_eval, ?_, rfl, rfl⟩
  intro h
  have h2 := congrArg (List.map Triad.validationAttempts) h
  rw [show (readSnapshotTriads (getMatrixState stOne) st1val).map
        Triad.validationAttempts = [1] from rfl,
      show (readSnapshotTriads (getMatrixState stOne) stOne).map
        Triad.validationAttempts = [0] from rfl] at h2
  exact absurd h2 (by decide)

/-- C9 (amended): the snapshot's top-level structure is a point-in-time
copy -- a later createTriad changes no record already visible through an
existing snapshot -- but the triad entries are live references, so a later
validateTriad's field update is visible through every snapshot holding the
updated triad's reference. -/
theorem getMatrixState_snapshot (st st1 : MatrixState) :
    (∀ e now d w t tr, createTriad st e now d w = .ok (st1, t, tr) →
      ∀ ρ ∈ (getMatrixState st).triads, ρ < st.heap.length →
        getRef st1 ρ = getRef st ρ) ∧
    (∀ id v t1 tr r, validateTriad st id v = .ok (st1, t1, tr) →
      lookupRef st id = some r →
      (getRef st r).validated = false →
      r < st.heap.length →
      r ∈ (getMatrixState st).triads →
      getRef st1 r = t1 ∧
      ∀ ρ ∈ (getMatrixState st).triads, ρ ≠ r → getRef st1 ρ = getRef st ρ) := by
  constructor
  · intro e now d w t tr h ρ _ hρ
    unfold createTriad at h
    split at h
    · exact absurd h (by simp)
    · split at h
      · exact absurd h (by simp)
      · split at h
        · exact absurd h (by simp)
        · cases h
          unfold getRef
          dsimp only
          rw [List.getD_append _ _ _ _ hρ]
  · intro id v t1 tr r h href hnv hr _
    unfold validateTriad at h
    split at h
    · exact absurd h (by simp)
    · rw [href] at h
      dsimp only at h
      rw [if_neg (by simp [hnv])] at h
      cases h
      constructor
      · exact getD_set_self hr
      · intro ρ _ hρ
        unfold getRef
        dsimp only
        rw [getD_set_ne (Ne.symm hρ)]

/-- Witness for the amended C9 at a concrete store: after validating the
triad of stOne, the updated record is visible through the old snapshot's
reference 0, and no other reference changed. -/
theorem getMatrixState_snapshot_witness :
    getRef st1val 0 = t1val ∧
    ∀ ρ ∈ (getMatrixState stOne).triads, ρ ≠ 0 →
      getRef st1val ρ = getRef stOne ρ :=
  (getMatrixState_snapshot stOne st1val).2 "aa" "w" t1val
    [Action.dbPutRecord ("triad:" ++ "aa") t1val,
     Action.emitEv (.triadValidated t1val)] 0
    validateTriad_stOne_eval rfl rfl (by decide) (by decide)

/-! ## P2P gossip node (P2PNode.js)

Only the message dispatcher and its helpers are embedded: the claims under
verification are about handleMessage, broadcast, removePeer and their
interplay with the store.  Socket handles are abstracted away: replies to
the originating socket, broadcasts, connection attempts and terminations
are recorded in the HandleResult of one dispatch. -/

/-- A peer record as kept in this.peers (the ws handle is abstracted). -/
structure Peer where
  id : String
  direction : String
  url : Option String
  connectedAt : ℕ
  nodeId : Option String
  address : Option String
deriving DecidableEq, Repr

/-- Wire form of a matrix snapshot: JSON.stringify serializes the snapshot
reading every referenced triad object at send time. -/
structure WireSnapshot where
  dimensions : ℕ
  complexity : ℚ
  triadsCount : ℕ
  triads : List Triad
  validators : List String
  consensusThreshold : ℚ
  isInitialized : Bool

/-- Serialization of getMatrixState for STATUS_UPDATE replies. -/
def serializeMatrixState (st : MatrixState) : WireSnapshot :=
  { dimensions := st.dimensions, complexity := st.complexity,
    triadsCount := st.matrix.length,
    triads := readSnapshotTriads (getMatrixState st) st,
    validators := st.validators, consensusThreshold := st.consensusThreshold,
    isInitialized := st.isInitialized }

/-- The message protocol.  NEW_TRIAD and TRIAD_VALIDATED carry full triad
records (they originate from triadCreated / triadValidated events whose
payload is the full triad). -/
inductive Message where
  | handshake (nodeId networkId : String) (address : Option String) (timestamp : ℕ)
  | discovery
  | peersMsg (addrs : List String)
  | newTriad (payload : Triad)
  | validateTriadMsg (triadId validatorId : String)
  | triadValidated (payload : Triad)
  | getStatus
  | statusUpdate (payload : WireSnapshot)
  | errorMsg (text : String)
  | unknownType (ty : String)

/-- State of one P2P node. -/
structure P2PState where
  nodeId : String
  port : ℕ
  networkId : String
  maxPeers : ℕ
  advertisedAddress : Option String
  peers : List (String × Peer)
  store : MatrixState

/-- this.peers.get(peerId). -/
def lookupPeer (st : P2PState) (peerId : String) : Option Peer :=
  (st.peers.find? (fun p => p.1 == peerId)).map (fun p => p.2)

/-- removePeer: terminate the socket and delete the map entry (the
termination itself is recorded by the caller in the HandleResult). -/
def removePeer (st : P2PState) (peerId : String) : P2PState :=
  { st with peers := st.peers.filter (fun p => !(p.1 == peerId)) }

/-- In-place mutation of the peer object registered under peerId. -/
def updatePeer (st : P2PState) (peerId : String) (p : Peer) : P2PState :=
  { st with peers := st.peers.map (fun q => if q.1 == peerId then (peerId, p) else q) }

/-- Truthiness of an optional string field of a peer record. -/
def optTruthy : Option String → Bool
  | none => false
  | some s => s != ""

/-- Deduplication keeping first occurrences, as new Set(...) does. -/
def dedupKeepFirst (l : List String) : List String :=
  l.foldl (fun acc a => if a ∈ acc then acc else acc ++ [a]) []

/-- getPeerAddresses: the advertised addresses of handshaken peers,
deduplicated. -/
def getPeerAddresses (st : P2PState) : List String :=
  dedupKeepFirst
    ((st.peers.filter (fun p => optTruthy p.2.address && optTruthy p.2.nodeId)).map
      (fun p => p.2.address.getD ""))

/-- Decides whether the needle character list is a prefix of the haystack. -/
def charsStartWith : List Char → List Char → Bool
  | [], _ => true
  | _ :: _, [] => false
  | a :: as, b :: bs => a == b && charsStartWith as bs

/-- Unanchored substring test on character lists (regex.test semantics). -/
def charsContain (hay needle : List Char) : Bool :=
  match hay with
  | [] => charsStartWith needle []
  | _ :: t => charsStartWith needle hay || charsContain t needle

/-- isSelf: the address matches ws://localhost:port or ws://127.0.0.1:port
anywhere in the string, or equals the advertised self address. -/
def isSelf (st : P2PState) (peerAddress : String) : Bool :=
  charsContain peerAddress.toList ("ws://localhost:" ++ toString st.port).toList ||
  charsContain peerAddress.toList ("ws://127.0.0.1:" ++ toString st.port).toList ||
  (match st.advertisedAddress with
   | some adv => adv != "" && peerAddress == adv
   | none => false)

/-- isConnectedTo: some peer has this url or advertised address. -/
def isConnectedTo (st : P2PState) (peerAddress : String) : Bool :=
  st.peers.any (fun p => p.2.url == some peerAddress || p.2.address == some peerAddress)

/-- broadcast: send to every current peer except the originator (none for
locally originated messages). -/
def broadcastTo (st : P2PState) (m : Message) (originator : Option String) :
    List (String × Message) :=
  (st.peers.filter (fun p => !(some p.1 == originator))).map (fun p => (p.1, m))

/-- Object.assign(localTriad, payload) where the payload carries every triad
field: every field of the target is overwritten, so the merged record equals
the payload. -/
def objectAssign (_localTriad payload : Triad) : Triad := payload

/-- Everything one handleMessage dispatch did besides transforming the
state: direct replies to the originating socket, broadcast sends,
connectToPeer attempts, termination of the originating socket, and peers
terminated through removePeer. -/
structure HandleResult where
  state : P2PState
  sends : List Message
  broadcasts : List (String × Message)
  connects : List String
  terminatedWs : Bool
  terminatedPeers : List String

/-- Dispatch result that only changes the state. -/
def plainResult (st : P2PState) : HandleResult :=
  { state := st, sends := [], broadcasts := [], connects := [],
    terminatedWs := false, terminatedPeers := [] }

open Classical in
/-- handleMessage: the switch over message.type.  The triadMatrix reference
is always present in the modelled configuration.  Entropy and clock feed the
createTriad call of the NEW_TRIAD case. -/
noncomputable def handleMessage (e : Entropy) (now : ℕ) (st : P2PState)
    (msg : Message) (peerId : String) : HandleResult :=
  match lookupPeer st peerId with
  | none => { plainResult st with terminatedWs := true }
  | some peer =>
    match msg with
    | .handshake rNodeId rNetworkId rAddress _ts =>
      if rNetworkId ≠ st.networkId then
        { state := removePeer st peerId,
          sends := [.errorMsg "Network ID mismatch"],
          broadcasts := [], connects := [], terminatedWs := false,
          terminatedPeers := [peerId] }
      else
        let st' := updatePeer st peerId
          { peer with nodeId := some rNodeId, address := rAddress }
        { plainResult st' with sends := [.peersMsg (getPeerAddresses st')] }
    | .discovery =>
      { plainResult st with sends := [.peersMsg (getPeerAddresses st)] }
    | .peersMsg addrs =>
      { plainResult st with
        connects := addrs.filter (fun a =>
          a != "" && !(isSelf st a) && !(isConnectedTo st a)) }
    | .newTriad payload =>
      let store' :=
        match getTriad st.store payload.id with
        | .ok none =>
          match createTriad st.store e now payload.data (.strV payload.validator) with
          | .ok (s1, _, _) => s1
          | .error _ => st.store
        | _ => st.store
      { plainResult { st with store := store' } with
        broadcasts := broadcastTo st msg (some peerId) }
    | .validateTriadMsg triadId validatorId =>
      if triadId != "" && validatorId != "" then
        let store' :=
          match validateTriad st.store triadId validatorId with
          | .ok (s1, _, _) => s1
          | .error _ => st.store
        plainResult { st with store := store' }
      else plainResult st
    | .triadValidated payload =>
      if payload.id != "" then
        let store' :=
          match getTriad st.store payload.id with
          | .ok (some localTriad) =>
            if localTriad.validated = false ∧ payload.validated = true then
              { st.store with
                db := dbPut st.store.db ("triad:" ++ payload.id)
                  (objectAssign localTriad payload) }
            else st.store
          | _ => st.store
        { plainResult { st with store := store' } with
          broadcasts := broadcastTo st msg (some peerId) }
      else plainResult st
    | .getStatus =>
      { plainResult st with sends := [.statusUpdate (serializeMatrixState st.store)] }
    | .statusUpdate _ =>
      { plainResult st with
        sends := [.errorMsg ("Unknown message type: " ++ "STATUS_UPDATE")] }
    | .errorMsg _ => plainResult st
    | .unknownType ty =>
      { plainResult st with sends := [.errorMsg ("Unknown message type: " ++ ty)] }

/-! ## Lemmas about the database and peer map helpers -/

lemma find?_map_dbPut_ne {db : List (String × Triad)} {k k2 : String}
    {t : Triad} (h : k ≠ k2) :
    (db.map (fun p => if p.1 == k2 then (k2, t) else p)).find?
        (fun p => p.1 == k) =
      db.find? (fun p => p.1 == k) := by
  induction db with
  | nil => rfl
  | cons p db ih =>
    rw [List.map_cons]
    by_cases hp : (p.1 == k2) = true
    · have hp2 : p.1 = k2 := by simpa using hp
      have hk2k : ((k2 : String) == k) = false := by
        simp [BEq.beq]
        exact fun hkk => h (Eq.symm hkk)
      have hpk : (p.1 == k) = false := by rw [hp2]; exact hk2k
      rw [if_pos hp, List.find?_cons, List.find?_cons]
      dsimp only
      rw [hk2k, hpk]
      exact ih
    · rw [if_neg (by simpa using hp), List.find?_cons, List.find?_cons]
      cases hpk : (p.1 == k)
      · exact ih
      · rfl

lemma dbGet_dbPut_ne {db : List (String × Triad)} {k k2 : String} {t : Triad}
    (h : k ≠ k2) : dbGet (dbPut db k2 t) k = dbGet db k := by
  unfold dbPut
  by_cases ha : db.any (fun p => p.1 == k2)
  · rw [if_pos ha]
    unfold dbGet
    rw [find?_map_dbPut_ne h]
  · rw [if_neg ha]
    unfold dbGet
    rw [List.find?_append]
    rw [show ([(k2, t)].find? (fun p => p.1 == k)) = none by
      simp [Ne.symm h]]
    rw [Option.or_none]

lemma triadKey_ne {a b : String} (h : a ≠ b) :
    ("triad:" ++ a) ≠ ("triad:" ++ b) := by
  intro he
  apply h
  have h2 : ("triad:" ++ a).data = ("triad:" ++ b).data := congrArg String.data he
  rw [String.data_append, String.data_append] at h2
  exact String.ext (List.append_cancel_left h2)

lemma lookupPeer_removePeer (st : P2PState) (peerId : String) :
    lookupPeer (removePeer st peerId) peerId = none := by
  unfold lookupPeer removePeer
  dsimp only
  rw [show ((st.peers.filter (fun p => !(p.1 == peerId))).find?
      (fun p => p.1 == peerId)) = none by
    rw [List.find?_eq_none]
    intro x hx
    rw [List.mem_filter] at hx
    simpa using hx.2]
  rfl

lemma find?_update_self {l : List (String × Peer)} {k : String} {p : Peer}
    (h : (l.find? (fun q => q.1 == k)).isSome = true) :
    (l.map (fun q => if q.1 == k then (k, p) else q)).find?
      (fun q => q.1 == k) = some (k, p) := by
  induction l with
  | nil => simp at h
  | cons a l ih =>
    rw [List.map_cons]
    by_cases ha : (a.1 == k) = true
    · rw [if_pos ha, List.find?_cons_of_pos _ (by simp)]
    · rw [if_neg (by simpa using ha),
        List.find?_cons_of_neg _ (by simpa using ha)]
      apply ih
      rw [List.find?_cons_of_neg _ (by simpa using ha)] at h
      exact h

lemma mem_broadcastTo {st : P2PState} {m : Message} {orig : String}
    {p : String × Peer} (hp : p ∈ st.peers) (hne : p.1 ≠ orig) :
    (p.1, m) ∈ broadcastTo st m (some orig) := by
  unfold broadcastTo
  rw [List.mem_map]
  refine ⟨p, ?_, rfl⟩
  rw [List.mem_filter]
  exact ⟨hp, by simpa using hne⟩

lemma broadcastTo_spec {st : P2PState} {m : Message} {orig : String} :
    ∀ q ∈ broadcastTo st m (some orig), q.1 ≠ orig ∧ q.2 = m := by
  intro q hq
  unfold broadcastTo at hq
  rw [List.mem_map] at hq
  obtain ⟨p, hp, rfl⟩ := hq
  rw [List.mem_filter] at hp
  exact ⟨by simpa using hp.2, rfl⟩

/-! ## Concrete P2P fixtures -/

/-- A handshaken inbound peer. -/
def peerB : Peer :=
  { id := "p2", direction := "incoming", url := none, connectedAt := 0,
    nodeId := some "n2", address := some "ws://peer2:4001" }

/-- An outbound peer that has not completed its handshake. -/
def peerC : Peer :=
  { id := "p3", direction := "outgoing", url := some "ws://peer3:4002",
    connectedAt := 0, nodeId := none, address := none }

/-- A node with two peers whose store is stOne. -/
def pOne : P2PState :=
  { nodeId := "n1", port := 4000, networkId := "seirchain-default",
    maxPeers := 10, advertisedAddress := none,
    peers := [("p2", peerB), ("p3", peerC)], store := stOne }

/-! ## Claim C5: durable persistence vs the in-memory index -/

/-- C5: evaluation of the TRIAD_VALIDATED network handler at a failing
input.  The store of pOne holds the unvalidated triad tA under id aa both
in memory and durably; an inbound TRIAD_VALIDATED message carrying the
validated copy tAv makes the handler overwrite only the durable record (it
operates on the value returned by getTriad, a database read), leaving the
in-memory object untouched: afterwards the durable record says validated
while the in-memory triad for the same id still says unvalidated, so the
in-memory index and the durable representation disagree. -/
theorem triadValidated_memory_db_divergence :
    tA.validated = false ∧ tAv.validated = true ∧
    lookupRef (handleMessage entropy0 0 pOne (.triadValidated tAv) "p2").state.store
      "aa" = some 0 ∧
    dbGet (handleMessage entropy0 0 pOne (.triadValidated tAv) "p2").state.store.db
      ("triad:" ++ "aa") = some tAv ∧
    getRef (handleMessage entropy0 0 pOne (.triadValidated tAv) "p2").state.store
      0 = tA ∧
    (getRef (handleMessage entropy0 0 pOne (.triadValidated tAv) "p2").state.store
      0).validated = false := by
  exact ⟨rfl, rfl, rfl, rfl, rfl, rfl⟩

/-! ## Claim C6: NEW_TRIAD gossip -/

/-- C6: a NEW_TRIAD message whose carried id is already durably present
leaves the node's state unchanged (no duplicate is created), a creation
happens only through createTriad on the carried data and validator when the
id is unknown, and regardless of novelty the message is re-broadcast to
exactly the currently connected peers other than the peer it arrived
from. -/
theorem newTriad_gossip (e : Entropy) (now : ℕ) (st : P2PState)
    (payload : Triad) (peerId : String) (peer : Peer)
    (hpeer : lookupPeer st peerId = some peer) :
    ((dbGet st.store.db ("triad:" ++ payload.id)).isSome = true →
      (handleMessage e now st (.newTriad payload) peerId).state = st) ∧
    (∀ s1 t tr, getTriad st.store payload.id = .ok none →
      createTriad st.store e now payload.data (.strV payload.validator) =
        .ok (s1, t, tr) →
      (handleMessage e now st (.newTriad payload) peerId).state.store = s1 ∧
      t.data = payload.data ∧ t.validator = payload.validator) ∧
    (handleMessage e now st (.newTriad payload) peerId).broadcasts =
      broadcastTo st (.newTriad payload) (some peerId) ∧
    (∀ p ∈ st.peers, p.1 ≠ peerId →
      (p.1, Message.newTriad payload) ∈
        (handleMessage e now st (.newTriad payload) peerId).broadcasts) ∧
    (∀ q ∈ (handleMessage e now st (.newTriad payload) peerId).broadcasts,
      q.1 ≠ peerId ∧ q.2 = Message.newTriad payload) := by
  have hred :
      handleMessage e now st (.newTriad payload) peerId =
        { plainResult
            { st with store :=
                match getTriad st.store payload.id with
                | .ok none =>
                  match createTriad st.store e now payload.data
                      (.strV payload.validator) with
                  | .ok (s1, _, _) => s1
                  | .error _ => st.store
                | _ => st.store } with
          broadcasts := broadcastTo st (.newTriad payload) (some peerId) } := by
    unfold handleMessage
    rw [hpeer]
  refine ⟨?_, ?_, ?_, ?_, ?_⟩
  · intro hsome
    have hstore : (match getTriad st.store payload.id with
        | Except.ok none =>
          (match createTriad st.store e now payload.data (.strV payload.validator) with
           | .ok (s1, _, _) => s1
           | .error _ => st.store)
        | _ => st.store) = st.store := by
      unfold getTriad
      by_cases hi : st.store.isInitialized = false
      · rw [if_pos hi]
      · rw [if_neg hi]
        obtain ⟨x, hx⟩ := Option.isSome_iff_exists.mp hsome
        rw [hx]
    rw [hred]
    dsimp only
    rw [hstore]
    rfl
  · intro s1 t tr hget hcreate
    have hstate :
        (handleMessage e now st (.newTriad payload) peerId).state.store = s1 := by
      rw [hred]
      dsimp only
      rw [hget]
      dsimp only
      rw [hcreate]
      rfl
    refine ⟨hstate, ?_, ?_⟩
    · unfold createTriad at hcreate
      split at hcreate
      · exact absurd hcreate (by simp)
      · split at hcreate
        · exact absurd hcreate (by simp)
        · split at hcreate
          · exact absurd hcreate (by simp)
          · cases hcreate
            rfl
    · unfold createTriad at hcreate
      split at hcreate
      · exact absurd hcreate (by simp)
      · split at hcreate
        · exact absurd hcreate (by simp)
        · split at hcreate
          · exact absurd hcreate (by simp)
          · cases hcreate
            rfl
  · rw [hred]
  · intro p hp hne
    rw [hred]
    exact mem_broadcastTo hp hne
  · intro q hq
    rw [hred] at hq
    exact broadcastTo_spec q hq

/-- Witness for C6 at a concrete node: the carried id aa is already present
in the store of pOne, so the state is unchanged, yet the message is
re-broadcast to the other peer. -/
theorem newTriad_gossip_witness :
    ((dbGet pOne.store.db ("triad:" ++ tAv.id)).isSome = true →
      (handleMessage entropy0 3 pOne (.newTriad tAv) "p2").state = pOne) ∧
    (∀ s1 t tr, getTriad pOne.store tAv.id = .ok none →
      createTriad pOne.store entropy0 3 tAv.data (.strV tAv.validator) =
        .ok (s1, t, tr) →
      (handleMessage entropy0 3 pOne (.newTriad tAv) "p2").state.store = s1 ∧
      t.data = tAv.data ∧ t.validator = tAv.validator) ∧
    (handleMessage entropy0 3 pOne (.newTriad tAv) "p2").broadcasts =
      broadcastTo pOne (.newTriad tAv) (some "p2") ∧
    (∀ p ∈ pOne.peers, p.1 ≠ "p2" →
      (p.1, Message.newTriad tAv) ∈
        (handleMessage entropy0 3 pOne (.newTriad tAv) "p2").broadcasts) ∧
    (∀ q ∈ (handleMessage entropy0 3 pOne (.newTriad tAv) "p2").broadcasts,
      q.1 ≠ "p2" ∧ q.2 = Message.newTriad tAv) :=
  newTriad_gossip entropy0 3 pOne tAv "p2" peerB rfl

/-! ## Claim C7: replicated triads get fresh ids -/

/-- C7: createTriad never accepts a caller-supplied id -- the id of every
created triad is the hex rendering of the freshly drawn random bytes.
Consequently, when a NEW_TRIAD message is replicated into the local store
and the freshly generated id differs from the carried one (the generator
reproducing the carried 128-bit id is the sole exception), the triad is
stored under the fresh id and no record appears under the carried id: ids
do not converge across nodes. -/
theorem newTriad_ids_not_converge (e : Entropy) (now : ℕ) (st : P2PState)
    (payload : Triad) (peerId : String) (peer : Peer)
    (hpeer : lookupPeer st peerId = some peer)
    (hinit : st.store.isInitialized = true)
    (hnone : dbGet st.store.db ("triad:" ++ payload.id) = none)
    (hdata : payload.data.truthy = true ∧
      (payload.data.typeofStr = "object" ∨ payload.data.typeofStr = "string"))
    (hvalstr : payload.validator ≠ "")
    (hne : generateTriadId e.idBytes ≠ payload.id) :
    (∀ (st0 : MatrixState) (e0 : Entropy) (n0 : ℕ) (d0 v0 : JSValue)
        (st1 : MatrixState) (t : Triad) (tr : List Action),
      createTriad st0 e0 n0 d0 v0 = .ok (st1, t, tr) →
      t.id = generateTriadId e0.idBytes) ∧
    dbGet (handleMessage e now st (.newTriad payload) peerId).state.store.db
      ("triad:" ++ generateTriadId e.idBytes) ≠ none ∧
    dbGet (handleMessage e now st (.newTriad payload) peerId).state.store.db
      ("triad:" ++ payload.id) = none := by
  have hfresh : ∀ (st0 : MatrixState) (e0 : Entropy) (n0 : ℕ) (d0 v0 : JSValue)
      (st1 : MatrixState) (t : Triad) (tr : List Action),
      createTriad st0 e0 n0 d0 v0 = .ok (st1, t, tr) →
      t.id = generateTriadId e0.idBytes := by
    intro st0 e0 n0 d0 v0 st1 t tr h
    unfold createTriad at h
    split at h
    · exact absurd h (by simp)
    · split at h
      · exact absurd h (by simp)
      · split at h
        · exact absurd h (by simp)
        · cases h
          rfl
  have hget : getTriad st.store payload.id = .ok none := by
    unfold getTriad
    rw [if_neg (by simp [hinit]), hnone]
  have hcreate :
      createTriad st.store e now payload.data (.strV payload.validator) =
        .ok ({ st.store with
            heap := st.store.heap ++
              [{ id := generateTriadId e.idBytes, data := payload.data,
                 validator := (JSValue.strV payload.validator).asString,
                 timestamp := now,
                 position := calculateOptimalPosition st.store.dimensions e,
                 connections := [], validated := false, consensus := 0,
                 validationAttempts := 0 }],
            matrix := st.store.matrix ++ [st.store.heap.length],
            triads := mapSet st.store.triads (generateTriadId e.idBytes)
              st.store.heap.length,
            db := dbPut st.store.db ("triad:" ++ generateTriadId e.idBytes)
              { id := generateTriadId e.idBytes, data := payload.data,
                validator := (JSValue.strV payload.validator).asString,
                timestamp := now,
                position := calculateOptimalPosition st.store.dimensions e,
                connections := [], validated := false, consensus := 0,
                validationAttempts := 0 } },
          { id := generateTriadId e.idBytes, data := payload.data,
            validator := (JSValue.strV payload.validator).asString,
            timestamp := now,
            position := calculateOptimalPosition st.store.dimensions e,
            connections := [], validated := false, consensus := 0,
            validationAttempts := 0 },
          [.dbPutRecord ("triad:" ++ generateTriadId e.idBytes)
            { id := generateTriadId e.idBytes, data := payload.data,
              validator := (JSValue.strV payload.validator).asString,
              timestamp := now,
              position := calculateOptimalPosition st.store.dimensions e,
              connections := [], validated := false, consensus := 0,
              validationAttempts := 0 },
           .dbPutMeta,
           .emitEv (.triadCreated
            { id := generateTriadId e.idBytes, data := payload.data,
              validator := (JSValue.strV payload.validator).asString,
              timestamp := now,
              position := calculateOptimalPosition st.store.dimensions e,
              connections := [], validated := false, consensus := 0,
              validationAttempts := 0 })]) := by
    unfold createTriad
    rw [if_neg (by simp [hinit]),
      if_neg (by simp [hdata.1, hdata.2]; tauto),
      if_neg (by simp [JSValue.truthy, JSValue.typeofStr, hvalstr])]
  have hstate :
      (handleMessage e now st (.newTriad payload) peerId).state.store.db =
        dbPut st.store.db ("triad:" ++ generateTriadId e.idBytes)
          { id := generateTriadId e.idBytes, data := payload.data,
            validator := (JSValue.strV payload.validator).asString,
            timestamp := now,
            position := calculateOptimalPosition st.store.dimensions e,
            connections := [], validated := false, consensus := 0,
            validationAttempts := 0 } := by
    unfold handleMessage
    rw [hpeer]
    dsimp only
    rw [hget]
    dsimp only
    rw [hcreate]
    rfl
  refine ⟨hfresh, ?_, ?_⟩
  · rw [hstate, dbGet_dbPut_self]
    exact fun h => Option.noConfusion h
  · rw [hstate, dbGet_dbPut_ne (triadKey_ne (Ne.symm hne))]
    exact hnone

/-- Witness for C7 at a concrete node: replicating a triad whose carried id
zz is unknown stores it under the 32-hex-digit id generated from entropy0,
and still no record exists under zz. -/
theorem newTriad_ids_not_converge_witness :
    dbGet (handleMessage entropy0 9 pOne
        (.newTriad { tA with id := "zz" }) "p2").state.store.db
      ("triad:" ++ generateTriadId entropy0.idBytes) ≠ none ∧
    dbGet (handleMessage entropy0 9 pOne
        (.newTriad { tA with id := "zz" }) "p2").state.store.db
      ("triad:" ++ "zz") = none := by
  have h := newTriad_ids_not_converge entropy0 9 pOne { tA with id := "zz" }
    "p2" peerB rfl rfl rfl (by constructor <;> decide) (by decide) (by decide)
  exact ⟨h.2.1, h.2.2⟩

/-! ## Claim C8: handshake network isolation -/

/-- C8: on a HANDSHAKE whose network id differs from the local one the node
replies with an ERROR message, removes the peer from the peer map and
terminates its connection, and any further message from that peer id is
dropped unprocessed (the dispatcher only terminates the unknown socket); on
a matching network id the remote's node id and address are recorded on the
peer record and the node replies with a PEERS message. -/
theorem handshake_network_isolation (e : Entropy) (now : ℕ) (st : P2PState)
    (rNodeId rNetworkId : String) (rAddress : Option String) (ts : ℕ)
    (peerId : String) (peer : Peer)
    (hpeer : lookupPeer st peerId = some peer) :
    (rNetworkId ≠ st.networkId →
      handleMessage e now st (.handshake rNodeId rNetworkId rAddress ts) peerId =
        { state := removePeer st peerId,
          sends := [.errorMsg "Network ID mismatch"],
          broadcasts := [], connects := [], terminatedWs := false,
          terminatedPeers := [peerId] } ∧
      lookupPeer (removePeer st peerId) peerId = none ∧
      (∀ m2 : Message, handleMessage e now (removePeer st peerId) m2 peerId =
        { plainResult (removePeer st peerId) with terminatedWs := true })) ∧
    (rNetworkId = st.networkId →
      handleMessage e now st (.handshake rNodeId rNetworkId rAddress ts) peerId =
        { plainResult (updatePeer st peerId
            { peer with nodeId := some rNodeId, address := rAddress }) with
          sends := [.peersMsg (getPeerAddresses (updatePeer st peerId
            { peer with nodeId := some rNodeId, address := rAddress }))] } ∧
      lookupPeer (updatePeer st peerId
          { peer with nodeId := some rNodeId, address := rAddress }) peerId =
        some { peer with nodeId := some rNodeId, address := rAddress }) := by
  constructor
  · intro hm
    refine ⟨?_, lookupPeer_removePeer st peerId, ?_⟩
    · unfold handleMessage
      rw [hpeer]
      dsimp only
      rw [if_pos hm]
    · intro m2
      unfold handleMessage
      rw [lookupPeer_removePeer]
  · intro hm
    have hsome : (st.peers.find? (fun p => p.1 == peerId)).isSome = true := by
      unfold lookupPeer at hpeer
      cases hfind : st.peers.find? (fun p => p.1 == peerId) with
      | none => rw [hfind] at hpeer; exact absurd hpeer (by simp)
      | some a => rfl
    constructor
    · unfold handleMessage
      rw [hpeer]
      dsimp only
      rw [if_neg (by simp [hm])]
    · unfold lookupPeer updatePeer
      dsimp only
      rw [find?_update_self hsome]
      rfl

/-- Witness for C8 at a concrete node: a handshake from peer p2 carrying a
wrong network id yields an ERROR reply, removal and termination of p2, and
a later message from p2 is not processed. -/
theorem handshake_network_isolation_witness :
    handleMessage entropy0 0 pOne (.handshake "nx" "othernet" none 0) "p2" =
      { state := removePeer pOne "p2",
        sends := [.errorMsg "Network ID mismatch"],
        broadcasts := [], connects := [], terminatedWs := false,
        terminatedPeers := ["p2"] } ∧
    lookupPeer (removePeer pOne "p2") "p2" = none ∧
    (∀ m2 : Message, handleMessage entropy0 0 (removePeer pOne "p2") m2 "p2" =
      { plainResult (removePeer pOne "p2") with terminatedWs := true }) :=
  (handshake_network_isolation entropy0 0 pOne "nx" "othernet" none 0 "p2"
    peerB rfl).1 (by decide)

/-! ## Identity module (Wallet.js), claim C10 -/

/-- An elliptic-curve key pair as the wallet observes one: private scalar
and compressed public key, hex encoded.  The curve arithmetic lives in the
external elliptic library, which is passed in as an oracle. -/
structure KeyPair where
  priv : String
  pub : String
deriving DecidableEq, Repr

/-- Internal wallet state: this.keyPair, this.publicKey, this.address. -/
structure WalletState where
  keyPair : Option KeyPair
  publicKey : Option String
  address : Option String
deriving DecidableEq, Repr

/-- Errors thrown by importFromPrivateKey. -/
inductive WalletError where
  | invalidFormat
  | importFailed (msg : String)
deriving DecidableEq, Repr

/-- A hexadecimal character of either case, as the import regex accepts. -/
def isHexChar (c : Char) : Bool :=
  ('0' ≤ c && c ≤ '9') || ('a' ≤ c && c ≤ 'f') || ('A' ≤ c && c ≤ 'F')

/-- Test of the anchored regex: exactly 64 hex characters. -/
def validKeyHex (s : String) : Bool :=
  s.length == 64 && s.toList.all isHexChar

/-- Numeric value of a hex digit character. -/
def hexVal (c : Char) : ℕ :=
  if '0' ≤ c ∧ c ≤ '9' then c.toNat - '0'.toNat
  else if 'a' ≤ c ∧ c ≤ 'f' then c.toNat - 'a'.toNat + 10
  else if 'A' ≤ c ∧ c ≤ 'F' then c.toNat - 'A'.toNat + 10
  else 0

/-- Buffer.from(hexString, hex): consecutive digit pairs become bytes. -/
def hexToBytes : List Char → List ℕ
  | hi :: lo :: rest => (hexVal hi * 16 + hexVal lo) :: hexToBytes rest
  | _ => []

/-- Lowercase hex rendering of a byte list (digest('hex')). -/
def bytesToHex (bytes : List ℕ) : String :=
  String.mk (bytes.flatMap (fun b => [hexDigit (b / 16), hexDigit (b % 16)]))

/-- Address derivation as in the source: sha256 over the public key bytes,
ripemd160 over that digest, rendered as hex, prefixed with seir and cut to
36 digits; null is returned for a missing public key.  The two digest
functions of the crypto module are oracles. -/
def generateAddressOpt (sha256d ripemd160d : List ℕ → List ℕ)
    (publicKeyHex : String) : Option String :=
  if publicKeyHex = "" then none
  else some ("seir" ++
    (bytesToHex (ripemd160d (sha256d (hexToBytes publicKeyHex.toList)))).take 36)

/-- importFromPrivateKey.  The elliptic calls of the try block
(keyFromPrivate followed by getPublic) are the curve oracle: ok carries the
key pair with its compressed public key, error models a thrown library
failure.  The result pairs the post-call wallet state with the outcome: a
format failure throws before touching any field, a library failure clears
all three fields before throwing ImportFailed, success stores key pair,
public key and derived address. -/
def importFromPrivateKey (curve : String → Except String KeyPair)
    (sha256d ripemd160d : List ℕ → List ℕ) (w : WalletState)
    (privateKeyHex : String) : WalletState × Except WalletError Bool :=
  if validKeyHex privateKeyHex = false then (w, .error .invalidFormat)
  else
    match curve privateKeyHex with
    | .ok kp =>
      ({ keyPair := some kp, publicKey := some kp.pub,
         address := generateAddressOpt sha256d ripemd160d kp.pub }, .ok true)
    | .error msg =>
      ({ keyPair := none, publicKey := none, address := none },
        .error (.importFailed msg))

/-- C10: importFromPrivateKey fails with InvalidFormat exactly when the
input is not 64 hexadecimal characters, leaving the wallet state untouched
(so no key gets loaded by the failed call); on an underlying curve-library
failure it clears key pair, public key and address and fails with
ImportFailed; on success it stores the key pair and derives and stores the
public key and the address. -/
theorem importFromPrivateKey_correct (curve : String → Except String KeyPair)
    (sha256d ripemd160d : List ℕ → List ℕ) (w : WalletState) (hex : String) :
    (∀ s : String, validKeyHex s = true ↔
      (s.length = 64 ∧ ∀ c ∈ s.toList, isHexChar c = true)) ∧
    (validKeyHex hex = false →
      importFromPrivateKey curve sha256d ripemd160d w hex =
        (w, .error .invalidFormat)) ∧
    (validKeyHex hex = true → ∀ msg, curve hex = .error msg →
      importFromPrivateKey curve sha256d ripemd160d w hex =
        ({ keyPair := none, publicKey := none, address := none },
          .error (.importFailed msg))) ∧
    (validKeyHex hex = true → ∀ kp, curve hex = .ok kp →
      importFromPrivateKey curve sha256d ripemd160d w hex =
        ({ keyPair := some kp, publicKey := some kp.pub,
           address := generateAddressOpt sha256d ripemd160d kp.pub },
          .ok true)) := by
  refine ⟨?_, ?_, ?_, ?_⟩
  · intro s
    unfold validKeyHex
    simp [List.all_eq_true]
  · intro h
    unfold importFromPrivateKey
    rw [if_pos h]
  · intro h msg hc
    unfold importFromPrivateKey
    rw [if_neg (by simp [h]), hc]
  · intro h kp hc
    unfold importFromPrivateKey
    rw [if_neg (by simp [h]), hc]

/-- An empty wallet, the state right after construction. -/
def walletW0 : WalletState := { keyPair := none, publicKey := none, address := none }

/-- A 64-hex-digit key accepted by the stub curve oracle. -/
def goodKey64 : String :=
  "aaaaaaaaaaaaaaaaaaaaaaaaaaaaaaaaaaaaaaaaaaaaaaaaaaaaaaaaaaaaaaaa"

/-- A 64-hex-digit key the stub curve oracle rejects. -/
def badKey64 : String :=
  "bbbbbbbbbbbbbbbbbbbbbbbbbbbbbbbbbbbbbbbbbbbbbbbbbbbbbbbbbbbbbbbb"

/-- Stub curve oracle: rejects badKey64, accepts everything else with a
fixed compressed public key. -/
def curveStub (s : String) : Except String KeyPair :=
  if s = badKey64 then .error "bad point"
  else .ok { priv := s, pub := "02ab" }

/-- Witness for C10 at concrete inputs: a malformed key leaves the empty
wallet untouched with InvalidFormat, a library failure clears the state
with ImportFailed, and a good key stores pair, public key and address. -/
theorem importFromPrivateKey_correct_witness :
    importFromPrivateKey curveStub (fun l => l) (fun l => l) walletW0 "xyz" =
      (walletW0, .error .invalidFormat) ∧
    importFromPrivateKey curveStub (fun l => l) (fun l => l) walletW0 badKey64 =
      ({ keyPair := none, publicKey := none, address := none },
        .error (.importFailed "bad point")) ∧
    importFromPrivateKey curveStub (fun l => l) (fun l => l) walletW0 goodKey64 =
      ({ keyPair := some { priv := goodKey64, pub := "02ab" },
         publicKey := some "02ab",
         address := generateAddressOpt (fun l => l) (fun l => l) "02ab" },
        .ok true) := by
  refine ⟨?_, ?_, ?_⟩
  · exact (importFromPrivateKey_correct curveStub (fun l => l) (fun l => l)
      walletW0 "xyz").2.1 (by decide)
  · exact (importFromPrivateKey_correct curveStub (fun l => l) (fun l => l)
      walletW0 badKey64).2.2.1 (by decide) "bad point" rfl
  · exact (importFromPrivateKey_correct curveStub (fun l => l) (fun l => l)
      walletW0 goodKey64).2.2.2 (by decide) { priv := goodKey64, pub := "02ab" }
      rfl

end SeirChain
